import Mathlib

/-!
Shallow embedding of the order-lifecycle, visibility and payment-method
logic of the foodie Flask application (src/foodie).

Modelling conventions:
* The relational store is a `DB` structure of lists of rows, one list per
  table, plus autoincrement counters for the two tables this code inserts
  into (`order`, `order_item`).
* SQLAlchemy `Float` columns are modelled as exact rationals (`Rat`);
  none of the stated properties depends on floating-point rounding, and
  every arithmetic step of the code is mirrored one-to-one.
* `query(...).filter_by(...).first()` becomes `List.find?`; mutations of a
  row object followed by `commit` become `update_first` / `remove_first`
  on the row identified by the same filter (SQL rows are pk-addressed, and
  `.first()` returns the first matching row, so first-match semantics are
  the faithful translation).
* `ORDER BY` clauses are not modelled: every property stated below is a
  membership property, and sorting does not change membership.
* Timestamps (`datetime.now`) are abstract `Nat` ticks supplied by the
  caller as a `now` argument.
* The ambient `flask.g.user` read by `check_country_access` and the route
  guards is threaded explicitly as an argument (`Option User`: `none` is
  an unauthenticated request).
-/

namespace Foodie

/-- Embeds `foodie.models.User` (models.py). -/
structure User where
  id : Nat
  username : String
  password : String
  full_name : String
  role : String       -- CHECK: role IN ('ADMIN', 'MANAGER', 'MEMBER')
  country : String    -- CHECK: country IN ('India', 'America')
  created_at : Nat
deriving DecidableEq

/-- Embeds `foodie.models.Restaurant` (models.py). -/
structure Restaurant where
  id : Nat
  name : String
  description : String
  country : String    -- CHECK: country IN ('India', 'America')
  address : String
  phone : String
  created_at : Nat
deriving DecidableEq

/-- Embeds `foodie.models.MenuItem` (models.py). -/
structure MenuItem where
  id : Nat
  restaurant_id : Nat
  name : String
  description : String
  price : Rat
  created_at : Nat
deriving DecidableEq

/-- Embeds `foodie.models.Order` (models.py).  The `payment_method_id` column is
Modelled from the spec: models.py under src/ does not declare it, while
the order services read and assign it; the spec's data model lists it as a
nullable foreign key acquired at placement. -/
structure Order where
  id : Nat
  user_id : Nat
  restaurant_id : Nat
  status : String     -- CHECK: status IN ('DRAFT', 'PLACED', 'CANCELLED', 'COMPLETED')
  total_amount : Rat
  notes : String
  created_at : Nat
  placed_at : Option Nat
  cancelled_at : Option Nat
  payment_method_id : Option Nat
deriving DecidableEq

/-- Embeds `foodie.models.OrderItem` (models.py). -/
structure OrderItem where
  id : Nat
  order_id : Nat
  menu_item_id : Nat
  quantity : Nat
  unit_price : Rat
  subtotal : Rat
  notes : String
  created_at : Nat
deriving DecidableEq

/-- Modelled from the spec: the `PaymentMethod` entity declaration is
absent from models.py under src/ (only its importers and callers are
present).  Per the spec's data model it has id, unique name, description
and a boolean `is_active` flag. -/
structure PaymentMethod where
  id : Nat
  name : String
  description : String
  is_active : Bool
deriving DecidableEq

/-- The relational store: one list of rows per table, plus autoincrement
counters for the tables the modelled operations insert into. -/
structure DB where
  users : List User
  restaurants : List Restaurant
  menu_items : List MenuItem
  orders : List Order
  order_items : List OrderItem
  payment_methods : List PaymentMethod
  next_order_id : Nat
  next_order_item_id : Nat
deriving DecidableEq

/-- Update the first element satisfying `p` (SQL `UPDATE` of the row a
`.first()` query returned). -/
def update_first {α : Type} (p : α → Bool) (f : α → α) : List α → List α
  | [] => []
  | x :: xs => if p x then f x :: xs else x :: update_first p f xs

/-- Remove the first element satisfying `p` (SQL `DELETE` of the row a
`.first()` query returned). -/
def remove_first {α : Type} (p : α → Bool) : List α → List α
  | [] => []
  | x :: xs => if p x then xs else x :: remove_first p xs

/-- Embeds `auth.utils.check_country_access` with the ambient `flask.g.user`
threaded explicitly. -/
def check_country_access (g_user : Option User) (country : String) : Bool :=
  match g_user with
  | none => false
  | some user =>
    if user.role == "ADMIN" then true
    else user.country == country

/-- Embeds `order.services.get_orders_for_user`: joins each order with its user
and restaurant (inner joins) and its payment method (outer join); ADMIN
sees all rows, others only rows whose restaurant country equals theirs. -/
def get_orders_for_user (db : DB) (user_role : String) (user_country : Option String) :
    List (Order × User × Restaurant × Option PaymentMethod) :=
  let base := db.orders.filterMap (fun o =>
    match db.users.find? (fun u => u.id == o.user_id),
          db.restaurants.find? (fun r => r.id == o.restaurant_id) with
    | some u, some r =>
        some (o, u, r, o.payment_method_id.bind
          (fun pid => db.payment_methods.find? (fun pm => pm.id == pid)))
    | _, _ => none)
  if user_role == "ADMIN" then base
  else base.filter (fun t =>
    match user_country with
    | some c => t.2.2.1.country == c
    | none => false)

/-- Embeds `order.services.get_order_by_id_with_relations`. -/
def get_order_by_id_with_relations (db : DB) (order_id : Nat) :
    Option (Order × User × Restaurant × Option PaymentMethod) :=
  (db.orders.find? (fun o => o.id == order_id)).bind (fun o =>
    (db.users.find? (fun u => u.id == o.user_id)).bind (fun u =>
      (db.restaurants.find? (fun r => r.id == o.restaurant_id)).map (fun r =>
        (o, u, r, o.payment_method_id.bind
          (fun pid => db.payment_methods.find? (fun pm => pm.id == pid))))))

/-- Embeds `order.services.get_order_by_id`. -/
def get_order_by_id (db : DB) (order_id : Nat) : Option Order :=
  db.orders.find? (fun o => o.id == order_id)

/-- Embeds `order.services.get_order_with_restaurant`. -/
def get_order_with_restaurant (db : DB) (order_id : Nat) : Option (Order × Restaurant) :=
  (db.orders.find? (fun o => o.id == order_id)).bind (fun o =>
    (db.restaurants.find? (fun r => r.id == o.restaurant_id)).map (fun r => (o, r)))

/-- Embeds `order.services.get_existing_draft_order`. -/
def get_existing_draft_order (db : DB) (user_id restaurant_id : Nat) : Option Order :=
  db.orders.find? (fun o =>
    o.user_id == user_id && o.restaurant_id == restaurant_id && o.status == "DRAFT")

/-- Embeds `order.services.create_draft_order`: inserts a new DRAFT order with
total 0 (the `created_at` default is the supplied clock tick). -/
def create_draft_order (db : DB) (user_id restaurant_id : Nat) (now : Nat) : DB × Order :=
  let new_order : Order :=
    { id := db.next_order_id, user_id := user_id, restaurant_id := restaurant_id,
      status := "DRAFT", total_amount := 0, notes := "", created_at := now,
      placed_at := none, cancelled_at := none, payment_method_id := none }
  ({ db with orders := db.orders ++ [new_order], next_order_id := db.next_order_id + 1 },
   new_order)

/-- Embeds `order.services.get_order_items_with_menu_items`. -/
def get_order_items_with_menu_items (db : DB) (order_id : Nat) :
    List (OrderItem × MenuItem) :=
  db.order_items.filterMap (fun it =>
    if it.order_id == order_id then
      (db.menu_items.find? (fun mi => mi.id == it.menu_item_id)).map (fun mi => (it, mi))
    else none)

/-- Embeds `order.services.get_menu_item_with_restaurant`. -/
def get_menu_item_with_restaurant (db : DB) (menu_item_id restaurant_id : Nat) :
    Option (MenuItem × Restaurant) :=
  (db.menu_items.find? (fun mi =>
      mi.id == menu_item_id && mi.restaurant_id == restaurant_id)).bind (fun mi =>
    (db.restaurants.find? (fun r => r.id == mi.restaurant_id)).map (fun r => (mi, r)))

/-- Embeds `order.services.get_existing_order_item`. -/
def get_existing_order_item (db : DB) (order_id menu_item_id : Nat) : Option OrderItem :=
  db.order_items.find? (fun it =>
    it.order_id == order_id && it.menu_item_id == menu_item_id)

/-- Embeds `order.services.add_item_to_order`: if a line item for the menu item
already exists, add to its quantity and recompute its subtotal as
`new_quantity * unit_price` with the `unit_price` ARGUMENT (the caller
passes the menu item's current price); otherwise insert a new line item
snapshotting `unit_price`. -/
def add_item_to_order (db : DB) (order_id menu_item_id quantity : Nat)
    (unit_price : Rat) : DB :=
  match get_existing_order_item db order_id menu_item_id with
  | some _ =>
    let items := update_first
      (fun it => it.order_id == order_id && it.menu_item_id == menu_item_id)
      (fun it => { it with
        quantity := it.quantity + quantity,
        subtotal := (it.quantity + quantity : Nat) * unit_price })
      db.order_items
    { db with order_items := items }
  | none =>
    let new_item : OrderItem :=
      { id := db.next_order_item_id, order_id := order_id,
        menu_item_id := menu_item_id, quantity := quantity,
        unit_price := unit_price, subtotal := (quantity : Nat) * unit_price,
        notes := "", created_at := 0 }
    { db with
        order_items := db.order_items ++ [new_item]
        next_order_item_id := db.next_order_item_id + 1 }

/-- Embeds `order.services.remove_order_item`. -/
def remove_order_item (db : DB) (item_id order_id : Nat) : DB × Bool :=
  match db.order_items.find? (fun it => it.id == item_id && it.order_id == order_id) with
  | some _ =>
    let items := remove_first
      (fun it => it.id == item_id && it.order_id == order_id) db.order_items
    ({ db with order_items := items }, true)
  | none => (db, false)

/-- The SQL aggregate `coalesce(sum(OrderItem.subtotal), 0)` over the
items of one order (an empty sum is 0, as `coalesce` provides). -/
def order_items_subtotal_sum (db : DB) (order_id : Nat) : Rat :=
  ((db.order_items.filter (fun it => it.order_id == order_id)).map
    (fun it => it.subtotal)).sum

/-- Embeds `order.services.update_order_total`: recomputes the order's total by
aggregation over its current items and stores it on the order row. -/
def update_order_total (db : DB) (order : Order) : DB :=
  let total := order_items_subtotal_sum db order.id
  let orders := update_first (fun o => o.id == order.id)
    (fun o => { o with total_amount := total }) db.orders
  { db with orders := orders }

/-- Embeds `order.services.get_order_item_count`. -/
def get_order_item_count (db : DB) (order_id : Nat) : Nat :=
  (db.order_items.filter (fun it => it.order_id == order_id)).length

/-- Embeds `order.services.get_payment_method_by_id`: resolves only ACTIVE
payment methods (`filter_by(id=..., is_active=1)`). -/
def get_payment_method_by_id (db : DB) (payment_method_id : Nat) : Option PaymentMethod :=
  db.payment_methods.find? (fun pm => pm.id == payment_method_id && pm.is_active)

/-- Embeds `order.services.place_order_in_db`: sets status, payment method and
placement time on the order row. -/
def place_order_in_db (db : DB) (order_id payment_method_id : Nat) (now : Nat) : DB :=
  let orders := update_first (fun o => o.id == order_id)
    (fun o => { o with
      status := "PLACED", payment_method_id := some payment_method_id,
      placed_at := some now }) db.orders
  { db with orders := orders }

/-- Embeds `order.services.cancel_order_in_db`. -/
def cancel_order_in_db (db : DB) (order_id : Nat) (now : Nat) : DB :=
  let orders := update_first (fun o => o.id == order_id)
    (fun o => { o with status := "CANCELLED", cancelled_at := some now }) db.orders
  { db with orders := orders }

/-- Embeds `order.services.can_user_edit_order`. -/
def can_user_edit_order (order : Order) (user_id : Nat) (user_role : String) : Bool :=
  if order.status != "DRAFT" then false
  else if order.user_id == user_id then true
  else if user_role == "ADMIN" || user_role == "MANAGER" then true
  else false

/-- Embeds `restaurant.services.get_restaurants_for_user`: each restaurant
paired with a live count of its menu items; ADMIN sees all, others only
their country. -/
def get_restaurants_for_user (db : DB) (user_role : String) (user_country : Option String) :
    List (Restaurant × Nat) :=
  let base := db.restaurants.map (fun r =>
    (r, (db.menu_items.filter (fun mi => mi.restaurant_id == r.id)).length))
  if user_role == "ADMIN" then base
  else base.filter (fun t =>
    match user_country with
    | some c => t.1.country == c
    | none => false)

/-- Embeds `restaurant.services.get_restaurant_by_id`. -/
def get_restaurant_by_id (db : DB) (restaurant_id : Nat) : Option Restaurant :=
  db.restaurants.find? (fun r => r.id == restaurant_id)

/-- Embeds `restaurant.services.get_menu_items_for_restaurant`. -/
def get_menu_items_for_restaurant (db : DB) (restaurant_id : Nat) : List MenuItem :=
  db.menu_items.filter (fun mi => mi.restaurant_id == restaurant_id)

/-- Embeds `admin.services.get_payment_method_by_id` (unlike the order-service
function of the same name, it does NOT require the method to be active). -/
def admin_get_payment_method_by_id (db : DB) (method_id : Nat) : Option PaymentMethod :=
  db.payment_methods.find? (fun pm => pm.id == method_id)

/-- Embeds `admin.services.toggle_payment_method_status`: flips `is_active` on
the row (`0 if method.is_active else 1`, i.e. boolean negation) and
returns the updated method, or an error when the id does not resolve. -/
def toggle_payment_method_status (db : DB) (method_id : Nat) :
    DB × Option PaymentMethod × Option String :=
  match admin_get_payment_method_by_id db method_id with
  | none => (db, none, some "Payment method not found.")
  | some m =>
    let pms := update_first (fun pm => pm.id == method_id)
      (fun pm => { pm with is_active := !pm.is_active }) db.payment_methods
    ({ db with payment_methods := pms },
     some { m with is_active := !m.is_active }, none)

/-! ## Route handlers (order/routes.py, restaurant/routes.py)

Each handler takes the store, the authenticated `flask.g.user` (the
`login_required` decorator already rejected unauthenticated requests, so
the modelled handlers take a `User`), the path and form parameters, and a
clock tick for handlers that write timestamps.  The result type of each
handler has one constructor per flash/redirect branch of the Python
handler. -/

inductive CreateOrderResult
  | restaurantNotFound
  | countryDenied
  | redirectToExisting (order_id : Nat)
  | created (order_id : Nat)
deriving DecidableEq

/-- Embeds `order.routes.create_order`: reuses an existing draft for the
(user, restaurant) pair, else inserts a fresh DRAFT order. -/
def create_order (db : DB) (user : User) (restaurant_id : Nat) (now : Nat) :
    DB × CreateOrderResult :=
  match get_restaurant_by_id db restaurant_id with
  | none => (db, .restaurantNotFound)
  | some restaurant =>
    if !check_country_access (some user) restaurant.country then
      (db, .countryDenied)
    else
      match get_existing_draft_order db user.id restaurant_id with
      | some existing_draft => (db, .redirectToExisting existing_draft.id)
      | none =>
        ((create_draft_order db user.id restaurant_id now).1,
         .created (create_draft_order db user.id restaurant_id now).2.id)

inductive AddItemResult
  | orderNotFound       -- order missing, not owned by the requester, or not DRAFT
  | menuItemNotFound
  | added (menu_item_name : String)
deriving DecidableEq

/-- Embeds `order.routes.add_item`: the order lookup is filtered by
`id=order_id, user_id=flask.g.user.id, status="DRAFT"`, so only the
order's owner can add items, and only while the order is a draft.
`menu_item_id` is the parsed form field (`none` when absent: the SQL
filter `MenuItem.id == NULL` then matches nothing). -/
def add_item (db : DB) (user : User) (order_id : Nat)
    (menu_item_id : Option Nat) (quantity : Nat) : DB × AddItemResult :=
  match db.orders.find? (fun o =>
      o.id == order_id && o.user_id == user.id && o.status == "DRAFT") with
  | none => (db, .orderNotFound)
  | some order =>
    match menu_item_id with
    | none => (db, .menuItemNotFound)
    | some mid =>
      match get_menu_item_with_restaurant db mid order.restaurant_id with
      | none => (db, .menuItemNotFound)
      | some (menu_item, _restaurant) =>
        (update_order_total (add_item_to_order db order_id mid quantity menu_item.price)
          order, .added menu_item.name)

inductive RemoveItemResult
  | orderNotFound       -- order missing or not DRAFT (ownership is NOT checked)
  | removed
deriving DecidableEq

/-- Embeds `order.routes.remove_item`: the order lookup is filtered only by
`id=order_id, status="DRAFT"` — the requesting user is not consulted at
all beyond having a session. -/
def remove_item (db : DB) (_user : User) (order_id item_id : Nat) :
    DB × RemoveItemResult :=
  match db.orders.find? (fun o => o.id == order_id && o.status == "DRAFT") with
  | none => (db, .orderNotFound)
  | some order =>
    (update_order_total (remove_order_item db item_id order_id).1 order, .removed)

inductive PlaceResult
  | forbidden            -- role_required("ADMIN", "MANAGER") denial
  | orderNotFound
  | alreadyPlaced        -- status != DRAFT ("This order has already been placed.")
  | emptyOrder           -- item count 0 ("Cannot place an empty order. ...")
  | selectPaymentMethod  -- falsy payment_method_id (absent or 0)
  | invalidPaymentMethod -- id does not resolve to an ACTIVE payment method
  | placed
deriving DecidableEq

/-- The spec's InvalidState failures of Place: wrong lifecycle status or
an empty order. -/
def PlaceResult.isInvalidState : PlaceResult → Bool
  | .alreadyPlaced => true
  | .emptyOrder => true
  | _ => false

/-- Embeds `order.routes.place_order`, POST path (the GET path only renders the
checkout page and changes nothing).  `payment_method_id` is the parsed
form field; Python treats both a missing field and the value 0 as falsy
("Please select a payment method"). -/
def place_order (db : DB) (user : User) (order_id : Nat)
    (payment_method_id : Option Nat) (now : Nat) : DB × PlaceResult :=
  if !(user.role == "ADMIN" || user.role == "MANAGER") then (db, .forbidden)
  else
    match get_order_with_restaurant db order_id with
    | none => (db, .orderNotFound)
    | some (order, _restaurant) =>
      if order.status != "DRAFT" then (db, .alreadyPlaced)
      else if get_order_item_count db order_id == 0 then (db, .emptyOrder)
      else
        match payment_method_id with
        | none => (db, .selectPaymentMethod)
        | some pmid =>
          if pmid == 0 then (db, .selectPaymentMethod)
          else
            match get_payment_method_by_id db pmid with
            | none => (db, .invalidPaymentMethod)
            | some _pm => (place_order_in_db db order_id pmid now, .placed)

inductive CancelResult
  | forbidden            -- role_required("ADMIN", "MANAGER") denial
  | orderNotFound
  | countryDenied        -- check_country_access against the order owner's country
  | alreadyCancelled     -- no-op with an informational notice
  | cannotCancelCompleted
  | cancelled
deriving DecidableEq

/-- Embeds `order.routes.cancel_order`. -/
def cancel_order (db : DB) (user : User) (order_id : Nat) (now : Nat) :
    DB × CancelResult :=
  if !(user.role == "ADMIN" || user.role == "MANAGER") then (db, .forbidden)
  else
    match get_order_by_id_with_relations db order_id with
    | none => (db, .orderNotFound)
    | some (order, owner, _restaurant, _pm) =>
      if !check_country_access (some user) owner.country then (db, .countryDenied)
      else if order.status == "CANCELLED" then (db, .alreadyCancelled)
      else if order.status == "COMPLETED" then (db, .cannotCancelCompleted)
      else (cancel_order_in_db db order_id now, .cancelled)

/-- Embeds `order.routes.list_orders`: `flask.g.user` is authenticated, its role
and country are passed to the service query. -/
def list_orders (db : DB) (user : User) :
    List (Order × User × Restaurant × Option PaymentMethod) :=
  get_orders_for_user db user.role (some user.country)

/-- Embeds `restaurant.routes.list_restaurants`. -/
def list_restaurants (db : DB) (user : User) : List (Restaurant × Nat) :=
  get_restaurants_for_user db user.role (some user.country)

inductive ViewOrderResult
  | notFound
  | countryDenied
  | ok (order : Order) (owner : User) (restaurant : Restaurant)
      (payment_method : Option PaymentMethod) (items : List (OrderItem × MenuItem))
deriving DecidableEq

/-- Embeds `order.routes.view_order`: re-applies the country predicate against
the order's restaurant after lookup. -/
def view_order (db : DB) (user : User) (order_id : Nat) : ViewOrderResult :=
  match get_order_by_id_with_relations db order_id with
  | none => .notFound
  | some (order, owner, restaurant, payment_method) =>
    if !check_country_access (some user) restaurant.country then .countryDenied
    else .ok order owner restaurant payment_method
      (get_order_items_with_menu_items db order_id)

inductive ViewRestaurantResult
  | notFound
  | countryDenied
  | ok (restaurant : Restaurant) (items : List MenuItem)
deriving DecidableEq

/-- Embeds `restaurant.routes.view_restaurant`. -/
def view_restaurant (db : DB) (user : User) (restaurant_id : Nat) :
    ViewRestaurantResult :=
  match get_restaurant_by_id db restaurant_id with
  | none => .notFound
  | some restaurant =>
    if !check_country_access (some user) restaurant.country then .countryDenied
    else .ok restaurant (get_menu_items_for_restaurant db restaurant_id)

/-- The order id a create-order response redirects to, when any. -/
def CreateOrderResult.order_id : CreateOrderResult → Option Nat
  | .redirectToExisting i => some i
  | .created i => some i
  | _ => none

/-! ## Concrete stores used to instantiate the theorems -/

/-- A concrete MEMBER user from India, used to instantiate
hypothesis-bearing theorems. -/
def exUser : User :=
  { id := 1, username := "thor", password := "pw", full_name := "Thor",
    role := "MEMBER", country := "India", created_at := 0 }

/-- Store for the C1 witness: one India restaurant with one menu item, a
DRAFT order of user 1 holding one line item. -/
def exDb1 : DB :=
  { users := [exUser]
    restaurants := [{ id := 1, name := "Saravana", description := "", country := "India",
                      address := "", phone := "", created_at := 0 }]
    menu_items := [{ id := 1, restaurant_id := 1, name := "Dosa", description := "",
                     price := 6, created_at := 0 }]
    orders := [{ id := 1, user_id := 1, restaurant_id := 1, status := "DRAFT",
                 total_amount := 4, notes := "", created_at := 0, placed_at := none,
                 cancelled_at := none, payment_method_id := none }]
    order_items := [{ id := 1, order_id := 1, menu_item_id := 2, quantity := 1,
                      unit_price := 4, subtotal := 4, notes := "", created_at := 0 }]
    payment_methods := []
    next_order_id := 2
    next_order_item_id := 2 }

/-- Store for the C9 witness: a single active payment method. -/
def exDb9 : DB :=
  { users := [], restaurants := [], menu_items := [], orders := [], order_items := []
    payment_methods := [{ id := 1, name := "Cash", description := "", is_active := true }]
    next_order_id := 1, next_order_item_id := 1 }

/-- Store for the C10 witness: a DRAFT order owned by user 1 with one
line item; user 2 is an unrelated MEMBER. -/
def exDb10 : DB :=
  { users := [exUser,
      { id := 2, username := "loki", password := "pw", full_name := "Loki",
        role := "MEMBER", country := "India", created_at := 0 }]
    restaurants := [{ id := 1, name := "Saravana", description := "", country := "India",
                      address := "", phone := "", created_at := 0 }]
    menu_items := [{ id := 1, restaurant_id := 1, name := "Dosa", description := "",
                     price := 6, created_at := 0 }]
    orders := [{ id := 1, user_id := 1, restaurant_id := 1, status := "DRAFT",
                 total_amount := 6, notes := "", created_at := 0, placed_at := none,
                 cancelled_at := none, payment_method_id := none }]
    order_items := [{ id := 1, order_id := 1, menu_item_id := 1, quantity := 1,
                      unit_price := 6, subtotal := 6, notes := "", created_at := 0 }]
    payment_methods := []
    next_order_id := 2
    next_order_item_id := 2 }

/-- The non-owner MEMBER issuing the C10 remove-item request. -/
def exIntruder : User :=
  { id := 2, username := "loki", password := "pw", full_name := "Loki",
    role := "MEMBER", country := "India", created_at := 0 }

/-- An ADMIN user from America. -/
def exAdmin : User :=
  { id := 3, username := "fury", password := "pw", full_name := "Fury",
    role := "ADMIN", country := "America", created_at := 0 }

/-- The India restaurant shared by the later witness stores. -/
def exRest : Restaurant :=
  { id := 1, name := "Saravana", description := "", country := "India",
    address := "", phone := "", created_at := 0 }

/-- An active payment method shared by the later witness stores. -/
def exPm : PaymentMethod :=
  { id := 1, name := "Cash", description := "", is_active := true }

/-- A PLACED order of user 1 at restaurant 1 (C5 witness). -/
def exOrder5 : Order :=
  { id := 1, user_id := 1, restaurant_id := 1, status := "PLACED", total_amount := 6,
    notes := "", created_at := 0, placed_at := some 2, cancelled_at := none,
    payment_method_id := some 1 }

/-- Store for the C5 witness: one PLACED order with its payment method. -/
def exDb5 : DB :=
  { users := [exUser]
    restaurants := [exRest]
    menu_items := []
    orders := [exOrder5]
    order_items := []
    payment_methods := [exPm]
    next_order_id := 2
    next_order_item_id := 1 }

/-- A DRAFT order of user 1 at restaurant 1 holding one item (C4 witness). -/
def exOrder4 : Order :=
  { id := 1, user_id := 1, restaurant_id := 1, status := "DRAFT", total_amount := 6,
    notes := "", created_at := 0, placed_at := none, cancelled_at := none,
    payment_method_id := none }

/-- Store for the C4 witness: a non-empty DRAFT order and an active
payment method. -/
def exDb4 : DB :=
  { users := [exUser]
    restaurants := [exRest]
    menu_items := [{ id := 1, restaurant_id := 1, name := "Dosa", description := "",
                     price := 6, created_at := 0 }]
    orders := [exOrder4]
    order_items := [{ id := 1, order_id := 1, menu_item_id := 1, quantity := 1,
                      unit_price := 6, subtotal := 6, notes := "", created_at := 0 }]
    payment_methods := [exPm]
    next_order_id := 2
    next_order_item_id := 2 }

/-- Store for C2: the menu price has risen to 3 after an OrderItem was
snapshotted at unit price 2 (quantity 1, subtotal 2). -/
def exDb2 : DB :=
  { users := [exUser]
    restaurants := [exRest]
    menu_items := [{ id := 1, restaurant_id := 1, name := "Dosa", description := "",
                     price := 3, created_at := 0 }]
    orders := [{ id := 1, user_id := 1, restaurant_id := 1, status := "DRAFT",
                 total_amount := 2, notes := "", created_at := 0, placed_at := none,
                 cancelled_at := none, payment_method_id := none }]
    order_items := [{ id := 1, order_id := 1, menu_item_id := 1, quantity := 1,
                      unit_price := 2, subtotal := 2, notes := "", created_at := 0 }]
    payment_methods := []
    next_order_id := 2
    next_order_item_id := 2 }

/-- An ADMIN user from America who owns the cross-country order of C3. -/
def exAmerican : User :=
  { id := 2, username := "steve", password := "pw", full_name := "Steve",
    role := "ADMIN", country := "America", created_at := 0 }

/-- The order owned by the America user at the India restaurant (C3). -/
def exOrder3 : Order :=
  { id := 1, user_id := 2, restaurant_id := 1, status := "DRAFT", total_amount := 0,
    notes := "", created_at := 0, placed_at := none, cancelled_at := none,
    payment_method_id := none }

/-- Store for C3: an America-owned order at an India restaurant, visible
to an India MEMBER because only the restaurant country is filtered. -/
def exDb3 : DB :=
  { users := [exUser, exAmerican]
    restaurants := [exRest]
    menu_items := []
    orders := [exOrder3]
    order_items := []
    payment_methods := []
    next_order_id := 2
    next_order_item_id := 1 }

/-- Store for C7: a DRAFT order of user 1 with an empty item table. -/
def exDb7 : DB :=
  { users := [exUser]
    restaurants := [exRest]
    menu_items := [{ id := 1, restaurant_id := 1, name := "Dosa", description := "",
                     price := 6, created_at := 0 }]
    orders := [{ id := 1, user_id := 1, restaurant_id := 1, status := "DRAFT",
                 total_amount := 0, notes := "", created_at := 0, placed_at := none,
                 cancelled_at := none, payment_method_id := none }]
    order_items := []
    payment_methods := []
    next_order_id := 2
    next_order_item_id := 1 }

/-- Store for the C6 witness: a restaurant with no existing draft. -/
def exDb6 : DB :=
  { users := [exUser]
    restaurants := [{ id := 1, name := "Saravana", description := "", country := "India",
                      address := "", phone := "", created_at := 0 }]
    menu_items := []
    orders := []
    order_items := []
    payment_methods := []
    next_order_id := 5
    next_order_item_id := 1 }

/-! ## General lemmas about the row-update primitives -/

theorem update_first_of_forall_not {α : Type} (p : α → Bool) (f : α → α)
    (l : List α) (h : ∀ x ∈ l, p x = false) : update_first p f l = l := by
  induction l with
  | nil => rfl
  | cons x xs ih =>
    have hx := h x (List.mem_cons_self x xs)
    have ih' := ih (fun y hy => h y (List.mem_cons_of_mem x hy))
    simp [update_first, hx, ih']

theorem update_first_of_find?_none {α : Type} (p : α → Bool) (f : α → α)
    (l : List α) (h : l.find? p = none) : update_first p f l = l :=
  update_first_of_forall_not p f l (fun x hx => by
    have := List.find?_eq_none.mp h x hx
    simpa using this)

theorem find?_update_first {α : Type} (p : α → Bool) (f : α → α) (l : List α)
    (hf : ∀ x, p x = true → p (f x) = true) :
    (update_first p f l).find? p = (l.find? p).map f := by
  induction l with
  | nil => rfl
  | cons x xs ih =>
    cases hx : p x with
    | true =>
      simp [update_first, hx, List.find?_cons, hf x hx]
    | false =>
      simp [update_first, hx, List.find?_cons, ih]

theorem update_first_congr {α : Type} (p q : α → Bool) (f : α → α) (l : List α)
    (h : ∀ x ∈ l, p x = q x) : update_first p f l = update_first q f l := by
  induction l with
  | nil => rfl
  | cons x xs ih =>
    have hx := h x (List.mem_cons_self x xs)
    have ih' := ih (fun y hy => h y (List.mem_cons_of_mem x hy))
    simp only [update_first, hx, ih']

theorem update_first_append_left {α : Type} (p : α → Bool) (f : α → α)
    (l1 l2 : List α) (h : ∀ x ∈ l1, p x = false) :
    update_first p f (l1 ++ l2) = l1 ++ update_first p f l2 := by
  induction l1 with
  | nil => rfl
  | cons x xs ih =>
    have hx := h x (List.mem_cons_self x xs)
    have ih' := ih (fun y hy => h y (List.mem_cons_of_mem x hy))
    simp [update_first, hx, ih']

theorem update_first_update_first {α : Type} (p : α → Bool) (f : α → α) (l : List α)
    (hf : ∀ x, p x = true → p (f x) = true)
    (hff : ∀ x, p x = true → f (f x) = x) :
    update_first p f (update_first p f l) = l := by
  induction l with
  | nil => rfl
  | cons x xs ih =>
    cases hx : p x with
    | true =>
      simp [update_first, hx, hf x hx, hff x hx]
    | false =>
      simp [update_first, hx, ih]

theorem find?_append_left_none {α : Type} (p : α → Bool) (l1 l2 : List α)
    (h : l1.find? p = none) : (l1 ++ l2).find? p = l2.find? p := by
  rw [List.find?_append, h, Option.none_or]

theorem remove_first_of_forall_not {α : Type} (p : α → Bool) (l : List α)
    (h : ∀ x ∈ l, p x = false) : remove_first p l = l := by
  induction l with
  | nil => rfl
  | cons x xs ih =>
    have hx := h x (List.mem_cons_self x xs)
    have ih' := ih (fun y hy => h y (List.mem_cons_of_mem x hy))
    simp [remove_first, hx, ih']

theorem remove_first_of_find?_none {α : Type} (p : α → Bool) (l : List α)
    (h : l.find? p = none) : remove_first p l = l :=
  remove_first_of_forall_not p l (fun x hx => by
    have := List.find?_eq_none.mp h x hx
    simpa using this)

/-! ## Frame lemmas: which tables each operation touches -/

theorem add_item_to_order_orders (db : DB) (oid mid q : Nat) (up : Rat) :
    (add_item_to_order db oid mid q up).orders = db.orders := by
  unfold add_item_to_order
  split <;> rfl

theorem add_item_to_order_menu_items (db : DB) (oid mid q : Nat) (up : Rat) :
    (add_item_to_order db oid mid q up).menu_items = db.menu_items := by
  unfold add_item_to_order
  split <;> rfl

theorem add_item_to_order_restaurants (db : DB) (oid mid q : Nat) (up : Rat) :
    (add_item_to_order db oid mid q up).restaurants = db.restaurants := by
  unfold add_item_to_order
  split <;> rfl

/-- The item-table effect of `add_item_to_order` when a line item for the
menu item already exists: the first matching row is merged into. -/
theorem add_item_to_order_existing (db : DB) (oid mid q : Nat) (up : Rat)
    (it : OrderItem) (h : get_existing_order_item db oid mid = some it) :
    (add_item_to_order db oid mid q up).order_items
      = update_first (fun x => x.order_id == oid && x.menu_item_id == mid)
          (fun x => { x with
            quantity := x.quantity + q
            subtotal := (x.quantity + q : Nat) * up })
          db.order_items := by
  unfold add_item_to_order
  rw [h]

/-- The item-table effect of `add_item_to_order` when no line item for
the menu item exists: exactly one new row with the requested quantity is
appended. -/
theorem add_item_to_order_new (db : DB) (oid mid q : Nat) (up : Rat)
    (h : get_existing_order_item db oid mid = none) :
    ∃ nIt : OrderItem,
      (add_item_to_order db oid mid q up).order_items = db.order_items ++ [nIt] ∧
      (nIt.order_id == oid && nIt.menu_item_id == mid) = true ∧
      nIt.quantity = q := by
  unfold add_item_to_order
  rw [h]
  exact ⟨_, rfl, by simp, rfl⟩

theorem remove_order_item_orders (db : DB) (iid oid : Nat) :
    (remove_order_item db iid oid).1.orders = db.orders := by
  unfold remove_order_item
  split <;> rfl

/-- Whether or not the row exists, the resulting item table is the
original one with the first matching row removed (no-op when absent). -/
theorem remove_order_item_items (db : DB) (iid oid : Nat) :
    (remove_order_item db iid oid).1.order_items
      = remove_first (fun it => it.id == iid && it.order_id == oid) db.order_items := by
  unfold remove_order_item
  split
  · rfl
  · rename_i hnone
    exact (remove_first_of_find?_none _ _ hnone).symm

theorem update_order_total_order_items (db : DB) (o : Order) :
    (update_order_total db o).order_items = db.order_items := rfl

theorem update_order_total_menu_items (db : DB) (o : Order) :
    (update_order_total db o).menu_items = db.menu_items := rfl

theorem update_order_total_restaurants (db : DB) (o : Order) :
    (update_order_total db o).restaurants = db.restaurants := rfl

/-- The row a subsequent by-id lookup sees after `update_order_total` is
the order with its total recomputed from the current items. -/
theorem update_order_total_spec (db : DB) (order : Order) (oid : Nat)
    (hmem : order ∈ db.orders) (hid : order.id = oid) :
    ∃ o, (update_order_total db order).orders.find? (fun x => x.id == oid) = some o ∧
      o.total_amount = order_items_subtotal_sum (update_order_total db order) oid := by
  have hsum : order_items_subtotal_sum (update_order_total db order) oid
      = order_items_subtotal_sum db oid := rfl
  have hfind : (update_order_total db order).orders.find? (fun x => x.id == oid)
      = (db.orders.find? (fun x => x.id == oid)).map
          (fun o => { o with total_amount := order_items_subtotal_sum db order.id }) := by
    show (update_first (fun o => o.id == order.id)
        (fun o => { o with total_amount := order_items_subtotal_sum db order.id })
        db.orders).find? (fun x => x.id == oid)
      = (db.orders.find? (fun x => x.id == oid)).map
          (fun o => { o with total_amount := order_items_subtotal_sum db order.id })
    rw [hid]
    exact find?_update_first (fun x => x.id == oid)
      (fun o => { o with total_amount := order_items_subtotal_sum db oid })
      db.orders (fun x hx => hx)
  have hsome : ∃ y, db.orders.find? (fun x => x.id == oid) = some y := by
    have : (db.orders.find? (fun x => x.id == oid)).isSome :=
      List.find?_isSome.mpr ⟨order, hmem, by simp [hid]⟩
    exact Option.isSome_iff_exists.mp this
  obtain ⟨y, hy⟩ := hsome
  refine ⟨{ y with total_amount := order_items_subtotal_sum db order.id }, ?_, ?_⟩
  · rw [hfind, hy]
    rfl
  · rw [hsum, hid]

end Foodie

open Foodie



/-! ## Claims -/

/-- C8: `check_country_access(user, country)` returns true whenever the
user's role is ADMIN, regardless of either country, and for every
non-ADMIN user it returns true if and only if the user's country equals
the given country. -/
theorem c8_check_country_access (user : User) (country : String) :
    (user.role = "ADMIN" → check_country_access (some user) country = true) ∧
    (user.role ≠ "ADMIN" →
      (check_country_access (some user) country = true ↔ user.country = country)) := by
  constructor
  · intro h
    simp [check_country_access, h]
  · intro h
    have hb : (user.role == "ADMIN") = false := by
      simpa [beq_iff_eq] using h
    simp [check_country_access, hb, beq_iff_eq]

/-- Witness for C8: a concrete MEMBER from India is granted access to
India and (by the iff) denied access to America. -/
theorem c8_check_country_access_witness :
    check_country_access
      (some { id := 1, username := "thor", password := "pw",
              full_name := "Thor", role := "MEMBER", country := "India",
              created_at := 0 }) "India" = true :=
  ((c8_check_country_access
      { id := 1, username := "thor", password := "pw", full_name := "Thor",
        role := "MEMBER", country := "India", created_at := 0 } "India").2
    (by decide)).mpr rfl

/-- C1: whenever an AddItem or RemoveItem request completes its mutation
(the handler reaches the item change and total recomputation), the target
order's stored `total_amount` equals the sum of the `subtotal` fields of
the order's items in the resulting store (0 for an empty item list, via
`coalesce`). -/
theorem c1_total_after_item_mutation (db : DB) (user : User) (oid : Nat)
    (mid : Option Nat) (q iid : Nat) :
    (∀ db' r, add_item db user oid mid q = (db', r) →
      ∀ nm, r = AddItemResult.added nm →
        ∃ o, db'.orders.find? (fun x => x.id == oid) = some o ∧
          o.total_amount = order_items_subtotal_sum db' oid) ∧
    (∀ db' r, remove_item db user oid iid = (db', r) →
      r = RemoveItemResult.removed →
        ∃ o, db'.orders.find? (fun x => x.id == oid) = some o ∧
          o.total_amount = order_items_subtotal_sum db' oid) := by
  constructor
  · intro db' r h nm hr
    unfold add_item at h
    split at h
    · rw [Prod.mk.injEq] at h
      rw [← h.2] at hr
      simp at hr
    · split at h
      · rw [Prod.mk.injEq] at h
        rw [← h.2] at hr
        simp at hr
      · split at h
        · rw [Prod.mk.injEq] at h
          rw [← h.2] at hr
          simp at hr
        · rename_i x1 order hfind mid_opt mid' x2 menu_item restaurant hmenu
          rw [Prod.mk.injEq] at h
          obtain ⟨hdb, _⟩ := h
          subst hdb
          have hp := List.find?_some hfind
          simp only [Bool.and_eq_true, beq_iff_eq] at hp
          have hmem : order ∈ (add_item_to_order db oid mid' q menu_item.price).orders := by
            rw [add_item_to_order_orders]
            exact List.mem_of_find?_eq_some hfind
          exact update_order_total_spec _ order oid hmem hp.1.1
  · intro db' r h hr
    unfold remove_item at h
    split at h
    · rw [Prod.mk.injEq] at h
      rw [← h.2] at hr
      simp at hr
    · rename_i order hfind
      rw [Prod.mk.injEq] at h
      obtain ⟨hdb, _⟩ := h
      subst hdb
      have hp := List.find?_some hfind
      simp only [Bool.and_eq_true, beq_iff_eq] at hp
      have hmem : order ∈ (remove_order_item db iid oid).1.orders := by
        rw [remove_order_item_orders]
        exact List.mem_of_find?_eq_some hfind
      exact update_order_total_spec _ order oid hmem hp.1

/-- Witness for C1: adding two units of menu item 1 to draft order 1
completes, and the stored total afterwards equals the item-subtotal sum. -/
theorem c1_total_after_item_mutation_witness :
    (add_item exDb1 exUser 1 (some 1) 2).2 = AddItemResult.added "Dosa" ∧
    (∃ o, (add_item exDb1 exUser 1 (some 1) 2).1.orders.find? (fun x => x.id == 1)
        = some o ∧
      o.total_amount = order_items_subtotal_sum (add_item exDb1 exUser 1 (some 1) 2).1 1) :=
  ⟨by with_unfolding_all decide,
   (c1_total_after_item_mutation exDb1 exUser 1 (some 1) 2 7).1 _ _ rfl "Dosa"
     (by with_unfolding_all decide)⟩

/-- Evaluation of one toggle call when the id resolves. -/
theorem toggle_eq_of_find (db : DB) (mid : Nat) (m : PaymentMethod)
    (h : db.payment_methods.find? (fun pm => pm.id == mid) = some m) :
    toggle_payment_method_status db mid
      = ({ db with payment_methods := (update_first (fun pm => pm.id == mid)
            (fun pm => { pm with is_active := !pm.is_active }) db.payment_methods) },
         some { m with is_active := !m.is_active }, none) := by
  unfold toggle_payment_method_status admin_get_payment_method_by_id
  rw [h]

/-- C9: toggling an existing payment method returns it with `is_active`
negated and every other field unchanged, stores that flipped row, and a
second toggle restores the payment-method table to exactly its original
contents. -/
theorem c9_toggle_roundtrip (db : DB) (method_id : Nat) (m : PaymentMethod)
    (h : admin_get_payment_method_by_id db method_id = some m) :
    (toggle_payment_method_status db method_id).2.1
        = some { m with is_active := !m.is_active } ∧
    (toggle_payment_method_status db method_id).2.2 = none ∧
    admin_get_payment_method_by_id (toggle_payment_method_status db method_id).1 method_id
        = some { m with is_active := !m.is_active } ∧
    (toggle_payment_method_status
        (toggle_payment_method_status db method_id).1 method_id).1.payment_methods
      = db.payment_methods := by
  have hfind : db.payment_methods.find? (fun pm => pm.id == method_id) = some m := h
  have h1 := toggle_eq_of_find db method_id m hfind
  have hpm1 : (toggle_payment_method_status db method_id).1.payment_methods
      = update_first (fun pm => pm.id == method_id)
          (fun pm => { pm with is_active := !pm.is_active }) db.payment_methods := by
    rw [h1]
  have hfind2 : (toggle_payment_method_status db method_id).1.payment_methods.find?
      (fun pm => pm.id == method_id) = some { m with is_active := !m.is_active } := by
    rw [hpm1, find?_update_first (fun pm => pm.id == method_id)
      (fun pm => { pm with is_active := !pm.is_active }) db.payment_methods
      (fun x hx => hx), hfind]
    rfl
  have h2 := toggle_eq_of_find (toggle_payment_method_status db method_id).1 method_id
    { m with is_active := !m.is_active } hfind2
  refine ⟨by rw [h1], by rw [h1], hfind2, ?_⟩
  rw [h2]
  show update_first (fun pm => pm.id == method_id)
      (fun pm => { pm with is_active := !pm.is_active })
      (toggle_payment_method_status db method_id).1.payment_methods
    = db.payment_methods
  rw [hpm1]
  exact update_first_update_first _ _ _ (fun x hx => hx)
    (fun x _ => by cases x; simp)

/-- Witness for C9: toggling "Cash" deactivates it and a second toggle
restores the original table. -/
theorem c9_toggle_roundtrip_witness :
    admin_get_payment_method_by_id exDb9 1
        = some { id := 1, name := "Cash", description := "", is_active := true } ∧
    ((toggle_payment_method_status exDb9 1).2.1
        = some { id := 1, name := "Cash", description := "", is_active := false } ∧
     (toggle_payment_method_status exDb9 1).2.2 = none ∧
     admin_get_payment_method_by_id (toggle_payment_method_status exDb9 1).1 1
        = some { id := 1, name := "Cash", description := "", is_active := false } ∧
     (toggle_payment_method_status
        (toggle_payment_method_status exDb9 1).1 1).1.payment_methods
        = exDb9.payment_methods) :=
  ⟨by decide, c9_toggle_roundtrip exDb9 1
    { id := 1, name := "Cash", description := "", is_active := true } (by decide)⟩

/-- C10: remove-item performs no ownership check: its outcome is literally
independent of the requesting user; for a MEMBER who does not own the
DRAFT order it still deletes the named item (no-op when the item is not
in the order) and recomputes the order total; add-item, by contrast,
rejects every request by a non-owner without touching the store. -/
theorem c10_remove_item_ignores_ownership (db : DB) (u1 u2 : User) (oid iid : Nat)
    (order : Order)
    (hfind : db.orders.find? (fun o => o.id == oid && o.status == "DRAFT") = some order)
    (_hnotowner : order.user_id ≠ u1.id) (_hrole : u1.role = "MEMBER")
    (hallnotowned : ∀ o ∈ db.orders, o.id = oid → o.user_id ≠ u1.id) :
    remove_item db u1 oid iid = remove_item db u2 oid iid ∧
    (remove_item db u1 oid iid).2 = RemoveItemResult.removed ∧
    (remove_item db u1 oid iid).1.order_items
      = remove_first (fun it => it.id == iid && it.order_id == oid) db.order_items ∧
    (∃ o, (remove_item db u1 oid iid).1.orders.find? (fun x => x.id == oid) = some o ∧
      o.total_amount = order_items_subtotal_sum (remove_item db u1 oid iid).1 oid) ∧
    (∀ mid q, add_item db u1 oid mid q = (db, AddItemResult.orderNotFound)) := by
  have h1 : remove_item db u1 oid iid
      = (update_order_total (remove_order_item db iid oid).1 order,
         RemoveItemResult.removed) := by
    unfold remove_item
    rw [hfind]
  refine ⟨rfl, ?_, ?_, ?_, ?_⟩
  · rw [h1]
  · rw [h1]
    show (update_order_total (remove_order_item db iid oid).1 order).order_items = _
    rw [update_order_total_order_items]
    exact remove_order_item_items db iid oid
  · rw [h1]
    have hp := List.find?_some hfind
    simp only [Bool.and_eq_true, beq_iff_eq] at hp
    have hmem : order ∈ (remove_order_item db iid oid).1.orders := by
      rw [remove_order_item_orders]
      exact List.mem_of_find?_eq_some hfind
    exact update_order_total_spec _ order oid hmem hp.1
  · intro mid q
    have hnone : db.orders.find?
        (fun o => o.id == oid && o.user_id == u1.id && o.status == "DRAFT") = none := by
      apply List.find?_eq_none.mpr
      intro o ho hcontra
      simp only [Bool.and_eq_true, beq_iff_eq] at hcontra
      exact hallnotowned o ho hcontra.1.1 hcontra.1.2
    unfold add_item
    rw [hnone]

/-- Witness for C10: MEMBER user 2 removes an item from user 1's draft
order; the outcome matches a removal by user 1 and the total is
recomputed, while user 2's add-item attempts are all rejected. -/
theorem c10_remove_item_ignores_ownership_witness :
    remove_item exDb10 exIntruder 1 1 = remove_item exDb10 exUser 1 1 ∧
    (remove_item exDb10 exIntruder 1 1).2 = RemoveItemResult.removed ∧
    (remove_item exDb10 exIntruder 1 1).1.order_items
      = remove_first (fun it => it.id == 1 && it.order_id == 1) exDb10.order_items ∧
    (∃ o, (remove_item exDb10 exIntruder 1 1).1.orders.find? (fun x => x.id == 1)
        = some o ∧
      o.total_amount = order_items_subtotal_sum (remove_item exDb10 exIntruder 1 1).1 1) ∧
    (∀ mid q, add_item exDb10 exIntruder 1 mid q = (exDb10, AddItemResult.orderNotFound)) :=
  c10_remove_item_ignores_ownership exDb10 exIntruder exUser 1 1
    { id := 1, user_id := 1, restaurant_id := 1, status := "DRAFT", total_amount := 6,
      notes := "", created_at := 0, placed_at := none, cancelled_at := none,
      payment_method_id := none }
    (by with_unfolding_all decide) (by decide) (by decide)
    (by with_unfolding_all decide)

/-- Evaluation of create-order when a draft for the pair already exists:
the existing draft is reused and the store is untouched. -/
theorem create_order_existing (db : DB) (user : User) (rid t : Nat)
    (restaurant : Restaurant) (d : Order)
    (hrest : get_restaurant_by_id db rid = some restaurant)
    (hcc : check_country_access (some user) restaurant.country = true)
    (hd : get_existing_draft_order db user.id rid = some d) :
    create_order db user rid t = (db, CreateOrderResult.redirectToExisting d.id) := by
  simp [create_order, hrest, hcc, hd]

/-- Evaluation of create-order when no draft exists: a fresh DRAFT order
is inserted. -/
theorem create_order_new (db : DB) (user : User) (rid t : Nat)
    (restaurant : Restaurant)
    (hrest : get_restaurant_by_id db rid = some restaurant)
    (hcc : check_country_access (some user) restaurant.country = true)
    (hdn : get_existing_draft_order db user.id rid = none) :
    create_order db user rid t
      = ((create_draft_order db user.id rid t).1,
         CreateOrderResult.created (create_draft_order db user.id rid t).2.id) := by
  simp [create_order, hrest, hcc, hdn]

/-- C6: create-order is idempotent per (user, restaurant).  With the
restaurant present and the country gate passing: an existing draft is
returned unchanged; with no draft, exactly one new DRAFT order with
total 0 is appended; two sequential creates report the same order id;
and a store with at most one draft for the pair still has at most one
afterwards. -/
theorem c6_create_idempotent (db : DB) (user : User) (rid now now2 : Nat)
    (restaurant : Restaurant)
    (hrest : get_restaurant_by_id db rid = some restaurant)
    (hcc : check_country_access (some user) restaurant.country = true) :
    (∀ d, get_existing_draft_order db user.id rid = some d →
      create_order db user rid now = (db, CreateOrderResult.redirectToExisting d.id)) ∧
    (get_existing_draft_order db user.id rid = none →
      (create_order db user rid now).1.orders
          = db.orders ++ [(create_draft_order db user.id rid now).2] ∧
      (create_draft_order db user.id rid now).2.status = "DRAFT" ∧
      (create_draft_order db user.id rid now).2.total_amount = 0 ∧
      (create_order db user rid now).2
          = CreateOrderResult.created (create_draft_order db user.id rid now).2.id) ∧
    ((create_order (create_order db user rid now).1 user rid now2).2.order_id
        = (create_order db user rid now).2.order_id ∧
      ((create_order db user rid now).2.order_id).isSome = true) ∧
    (db.orders.countP (fun o =>
          o.user_id == user.id && o.restaurant_id == rid && o.status == "DRAFT") ≤ 1 →
      (create_order db user rid now).1.orders.countP (fun o =>
          o.user_id == user.id && o.restaurant_id == rid && o.status == "DRAFT") ≤ 1) := by
  refine ⟨fun d hd => create_order_existing db user rid now restaurant d hrest hcc hd,
    fun hdn => ?_, ?_, ?_⟩
  · rw [create_order_new db user rid now restaurant hrest hcc hdn]
    exact ⟨rfl, rfl, rfl, rfl⟩
  · cases hd : get_existing_draft_order db user.id rid with
    | some d =>
      rw [create_order_existing db user rid now restaurant d hrest hcc hd]
      rw [create_order_existing db user rid now2 restaurant d hrest hcc hd]
      exact ⟨rfl, rfl⟩
    | none =>
      rw [create_order_new db user rid now restaurant hrest hcc hd]
      have hrest1 : get_restaurant_by_id (create_draft_order db user.id rid now).1 rid
          = some restaurant := hrest
      have hpnew : ((create_draft_order db user.id rid now).2.user_id == user.id &&
          (create_draft_order db user.id rid now).2.restaurant_id == rid &&
          (create_draft_order db user.id rid now).2.status == "DRAFT") = true := by
        simp [create_draft_order]
      have hdraft1 : get_existing_draft_order (create_draft_order db user.id rid now).1
          user.id rid = some (create_draft_order db user.id rid now).2 := by
        show ((db.orders ++ [(create_draft_order db user.id rid now).2]).find? fun o =>
          o.user_id == user.id && o.restaurant_id == rid && o.status == "DRAFT")
          = some (create_draft_order db user.id rid now).2
        rw [find?_append_left_none _ _ _ hd]
        exact List.find?_cons_of_pos _ hpnew
      rw [create_order_existing (create_draft_order db user.id rid now).1 user rid now2
        restaurant (create_draft_order db user.id rid now).2 hrest1 hcc hdraft1]
      exact ⟨rfl, rfl⟩
  · intro hcount
    cases hd : get_existing_draft_order db user.id rid with
    | some d =>
      rw [create_order_existing db user rid now restaurant d hrest hcc hd]
      exact hcount
    | none =>
      rw [create_order_new db user rid now restaurant hrest hcc hd]
      show (db.orders ++ [(create_draft_order db user.id rid now).2]).countP _ ≤ 1
      rw [List.countP_append]
      have h0 : db.orders.countP (fun o =>
          o.user_id == user.id && o.restaurant_id == rid && o.status == "DRAFT") = 0 := by
        rw [List.countP_eq_zero]
        intro a ha
        have := List.find?_eq_none.mp hd a ha
        simpa using this
      rw [h0]
      simp [List.countP_cons, create_draft_order]

/-- Witness for C6: with no prior draft, create inserts a DRAFT order
with total 0 and a second create reports the same order id. -/
theorem c6_create_idempotent_witness :
    get_existing_draft_order exDb6 1 1 = none ∧
    ((create_order exDb6 exUser 1 3).1.orders
        = exDb6.orders ++ [(create_draft_order exDb6 1 1 3).2] ∧
     (create_draft_order exDb6 1 1 3).2.status = "DRAFT" ∧
     (create_draft_order exDb6 1 1 3).2.total_amount = 0 ∧
     (create_order exDb6 exUser 1 3).2
        = CreateOrderResult.created (create_draft_order exDb6 1 1 3).2.id) ∧
    (create_order (create_order exDb6 exUser 1 3).1 exUser 1 4).2.order_id
        = (create_order exDb6 exUser 1 3).2.order_id :=
  ⟨by decide,
   (c6_create_idempotent exDb6 exUser 1 3 4
     { id := 1, name := "Saravana", description := "", country := "India",
       address := "", phone := "", created_at := 0 }
     (by decide) (by decide)).2.1 (by decide),
   ((c6_create_idempotent exDb6 exUser 1 3 4
     { id := 1, name := "Saravana", description := "", country := "India",
       address := "", phone := "", created_at := 0 }
     (by decide) (by decide)).2.2.1).1⟩

/-- C5: with the role and country gates passing, Cancel fails and leaves
the store untouched when the order is COMPLETED, is a no-op-with-notice
when already CANCELLED, and from DRAFT or PLACED it succeeds, setting
status CANCELLED and cancelled_at to the current tick while leaving the
item table unchanged. -/
theorem c5_cancel_transitions (db : DB) (user : User) (oid now : Nat)
    (order : Order) (owner : User) (restaurant : Restaurant)
    (pm : Option PaymentMethod)
    (hrole : user.role = "ADMIN" ∨ user.role = "MANAGER")
    (hrel : get_order_by_id_with_relations db oid = some (order, owner, restaurant, pm))
    (hcc : check_country_access (some user) owner.country = true) :
    (order.status = "COMPLETED" →
      cancel_order db user oid now = (db, CancelResult.cannotCancelCompleted)) ∧
    (order.status = "CANCELLED" →
      cancel_order db user oid now = (db, CancelResult.alreadyCancelled)) ∧
    (order.status = "DRAFT" ∨ order.status = "PLACED" →
      (cancel_order db user oid now).2 = CancelResult.cancelled ∧
      (cancel_order db user oid now).1.orders.find? (fun x => x.id == oid)
        = some { order with status := "CANCELLED", cancelled_at := some now } ∧
      (cancel_order db user oid now).1.order_items = db.order_items) := by
  have hroleb : (user.role == "ADMIN" || user.role == "MANAGER") = true := by
    rcases hrole with h | h <;> simp [h]
  have hfind : db.orders.find? (fun o => o.id == oid) = some order := by
    unfold get_order_by_id_with_relations at hrel
    cases hfo : db.orders.find? (fun o => o.id == oid) with
    | none => rw [hfo] at hrel; simp at hrel
    | some o2 =>
      rw [hfo] at hrel
      simp only [Option.some_bind, Option.bind_eq_some, Option.map_eq_some'] at hrel
      obtain ⟨u2, hu2, r2, hr2, heq⟩ := hrel
      rw [Prod.mk.injEq] at heq
      rw [heq.1]
  refine ⟨fun hs => ?_, fun hs => ?_, fun hs => ?_⟩
  · simp [cancel_order, hroleb, hrel, hcc, hs]
  · simp [cancel_order, hroleb, hrel, hcc, hs]
  · have heval : cancel_order db user oid now
        = (cancel_order_in_db db oid now, CancelResult.cancelled) := by
      rcases hs with h | h <;> simp [cancel_order, hroleb, hrel, hcc, h]
    rw [heval]
    refine ⟨rfl, ?_, rfl⟩
    show (update_first (fun o => o.id == oid)
        (fun o => { o with status := "CANCELLED", cancelled_at := some now })
        db.orders).find? (fun x => x.id == oid)
      = some { order with status := "CANCELLED", cancelled_at := some now }
    rw [find?_update_first (fun x => x.id == oid)
      (fun o => { o with status := "CANCELLED", cancelled_at := some now })
      db.orders (fun x hx => hx), hfind]
    rfl

/-- Witness for C5: an ADMIN cancels a PLACED order; the stored row
becomes CANCELLED with cancelled_at set. -/
theorem c5_cancel_transitions_witness :
    get_order_by_id_with_relations exDb5 1
        = some (exOrder5, exUser, exRest, some exPm) ∧
    ((cancel_order exDb5 exAdmin 1 9).2 = CancelResult.cancelled ∧
     (cancel_order exDb5 exAdmin 1 9).1.orders.find? (fun x => x.id == 1)
        = some { exOrder5 with status := "CANCELLED", cancelled_at := some 9 } ∧
     (cancel_order exDb5 exAdmin 1 9).1.order_items = exDb5.order_items) :=
  ⟨by with_unfolding_all decide,
   (c5_cancel_transitions exDb5 exAdmin 1 9 exOrder5 exUser exRest (some exPm)
     (Or.inl rfl) (by with_unfolding_all decide) (by decide)).2.2 (Or.inr rfl)⟩

/-- C4: with the role gate passing and the order resolving: Place fails
with an InvalidState outcome when the status is not DRAFT or when the
item count is 0; fails with an InvalidReference outcome when a given
(nonzero) payment method id does not resolve to an active payment
method; every non-success outcome leaves the store untouched (so a DRAFT
order is still DRAFT); and on success the order row becomes PLACED with
placed_at set to the current tick and payment_method_id set to the given
id, the item table unchanged. -/
theorem c4_place_order (db : DB) (user : User) (oid : Nat) (pmid : Option Nat)
    (now : Nat) (order : Order) (restaurant : Restaurant)
    (hrole : user.role = "ADMIN" ∨ user.role = "MANAGER")
    (hres : get_order_with_restaurant db oid = some (order, restaurant)) :
    (order.status ≠ "DRAFT" →
      place_order db user oid pmid now = (db, PlaceResult.alreadyPlaced) ∧
      (place_order db user oid pmid now).2.isInvalidState = true) ∧
    (order.status = "DRAFT" → get_order_item_count db oid = 0 →
      place_order db user oid pmid now = (db, PlaceResult.emptyOrder) ∧
      (place_order db user oid pmid now).2.isInvalidState = true) ∧
    (∀ k, order.status = "DRAFT" → get_order_item_count db oid ≠ 0 →
      pmid = some k → k ≠ 0 → get_payment_method_by_id db k = none →
      place_order db user oid pmid now = (db, PlaceResult.invalidPaymentMethod)) ∧
    (∀ db' r, place_order db user oid pmid now = (db', r) →
      r ≠ PlaceResult.placed → db' = db) ∧
    (∀ k pm, order.status = "DRAFT" → get_order_item_count db oid ≠ 0 →
      pmid = some k → k ≠ 0 → get_payment_method_by_id db k = some pm →
      (place_order db user oid pmid now).2 = PlaceResult.placed ∧
      (place_order db user oid pmid now).1.orders.find? (fun x => x.id == oid)
        = some { order with
            status := "PLACED"
            payment_method_id := some k
            placed_at := some now } ∧
      (place_order db user oid pmid now).1.order_items = db.order_items) := by
  have hroleb : (user.role == "ADMIN" || user.role == "MANAGER") = true := by
    rcases hrole with h | h <;> simp [h]
  have hfind : db.orders.find? (fun o => o.id == oid) = some order := by
    unfold get_order_with_restaurant at hres
    cases hfo : db.orders.find? (fun o => o.id == oid) with
    | none => rw [hfo] at hres; simp at hres
    | some o2 =>
      rw [hfo] at hres
      simp only [Option.some_bind, Option.map_eq_some'] at hres
      obtain ⟨r2, hr2, heq⟩ := hres
      rw [Prod.mk.injEq] at heq
      rw [heq.1]
  refine ⟨fun hs => ?_, fun hs hc => ?_, fun k hs hc hp hk hn => ?_,
    fun db' r h hnp => ?_, fun k pm hs hc hp hk hsome => ?_⟩
  · have hsb : (order.status != "DRAFT") = true := by
      simpa [bne_iff_ne] using hs
    refine ⟨?_, ?_⟩ <;> simp [place_order, hroleb, hres, hsb, PlaceResult.isInvalidState]
  · have hsb : (order.status != "DRAFT") = false := by
      simp [bne_iff_ne, hs]
    refine ⟨?_, ?_⟩ <;>
      simp [place_order, hroleb, hres, hsb, hc, PlaceResult.isInvalidState]
  · have hsb : (order.status != "DRAFT") = false := by
      simp [bne_iff_ne, hs]
    have hcb : (get_order_item_count db oid == 0) = false := by
      simpa using hc
    have hkb : (k == 0) = false := by
      simpa using hk
    simp [place_order, hroleb, hres, hsb, hcb, hp, hkb, hn]
  · unfold place_order at h
    repeat' split at h
    all_goals rw [Prod.mk.injEq] at h
    all_goals first
      | exact h.1.symm
      | exact absurd h.2.symm hnp
  · have hsb : (order.status != "DRAFT") = false := by
      simp [bne_iff_ne, hs]
    have hcb : (get_order_item_count db oid == 0) = false := by
      simpa using hc
    have hkb : (k == 0) = false := by
      simpa using hk
    have heval : place_order db user oid pmid now
        = (place_order_in_db db oid k now, PlaceResult.placed) := by
      simp [place_order, hroleb, hres, hsb, hcb, hp, hkb, hsome]
    rw [heval]
    refine ⟨rfl, ?_, rfl⟩
    show (update_first (fun o => o.id == oid)
        (fun o => { o with
          status := "PLACED"
          payment_method_id := some k
          placed_at := some now })
        db.orders).find? (fun x => x.id == oid)
      = some { order with
          status := "PLACED"
          payment_method_id := some k
          placed_at := some now }
    rw [find?_update_first (fun x => x.id == oid)
      (fun o => { o with
        status := "PLACED"
        payment_method_id := some k
        placed_at := some now })
      db.orders (fun x hx => hx), hfind]
    rfl

/-- Witness for C4: an ADMIN places a one-item DRAFT order with the
active payment method 1; the row becomes PLACED with placed_at and
payment_method_id set. -/
theorem c4_place_order_witness :
    get_order_with_restaurant exDb4 1 = some (exOrder4, exRest) ∧
    get_payment_method_by_id exDb4 1 = some exPm ∧
    ((place_order exDb4 exAdmin 1 (some 1) 8).2 = PlaceResult.placed ∧
     (place_order exDb4 exAdmin 1 (some 1) 8).1.orders.find? (fun x => x.id == 1)
        = some { exOrder4 with
            status := "PLACED"
            payment_method_id := some 1
            placed_at := some 8 } ∧
     (place_order exDb4 exAdmin 1 (some 1) 8).1.order_items = exDb4.order_items) :=
  ⟨by with_unfolding_all decide, by decide,
   (c4_place_order exDb4 exAdmin 1 (some 1) 8 exOrder4 exRest (Or.inl rfl)
     (by with_unfolding_all decide)).2.2.2.2 1 exPm rfl (by decide) rfl (by decide)
     (by decide)⟩

/-- Counterexample to C2 as stated: with the menu price changed from the
snapshotted 2 to 3, re-adding one unit yields quantity 2 with subtotal
6 = 2 * 3 (current price) while the stored unit_price snapshot is still
2; the claim's snapshot-based recomputation would give 4 = 2 * 2. -/
theorem c2_counterexample :
    ((add_item exDb2 exUser 1 (some 1) 1).1.order_items.map
        (fun it => (it.quantity, it.unit_price, it.subtotal)))
      = [(2, 2, 6)] ∧
    (2 : Rat) * 2 ≠ 6 := by
  with_unfolding_all decide

/-- C2 (amended): when an OrderItem for the menu item already exists in
the requester's draft order, add-item increments its quantity and
recomputes its subtotal as new_quantity * (the menu item's CURRENT
price); the stored unit_price snapshot is left unchanged but is not used
in the recomputation, so a menu price change followed by a re-add does
alter the existing line item's subtotal. -/
theorem c2_amended_readd_uses_current_price (db : DB) (user : User) (oid mid q : Nat)
    (order : Order) (menu_item : MenuItem) (restaurant : Restaurant) (it : OrderItem)
    (hord : db.orders.find? (fun o =>
        o.id == oid && o.user_id == user.id && o.status == "DRAFT") = some order)
    (hmenu : get_menu_item_with_restaurant db mid order.restaurant_id
        = some (menu_item, restaurant))
    (hit : get_existing_order_item db oid mid = some it) :
    (add_item db user oid (some mid) q).2 = AddItemResult.added menu_item.name ∧
    (add_item db user oid (some mid) q).1.order_items.find? (fun x =>
        x.order_id == oid && x.menu_item_id == mid)
      = some { it with
          quantity := it.quantity + q
          subtotal := (it.quantity + q : Nat) * menu_item.price } := by
  have heval : add_item db user oid (some mid) q
      = (update_order_total (add_item_to_order db oid mid q menu_item.price) order,
         AddItemResult.added menu_item.name) := by
    simp [add_item, hord, hmenu]
  constructor
  · rw [heval]
  · rw [heval]
    show (update_order_total (add_item_to_order db oid mid q menu_item.price)
        order).order_items.find? _ = _
    rw [update_order_total_order_items]
    unfold add_item_to_order
    rw [hit]
    show (update_first (fun x => x.order_id == oid && x.menu_item_id == mid)
        (fun x => { x with
          quantity := x.quantity + q
          subtotal := (x.quantity + q : Nat) * menu_item.price })
        db.order_items).find? _ = _
    rw [find?_update_first (fun x => x.order_id == oid && x.menu_item_id == mid)
      (fun x => { x with
        quantity := x.quantity + q
        subtotal := (x.quantity + q : Nat) * menu_item.price })
      db.order_items (fun x hx => hx)]
    rw [show db.order_items.find? (fun x =>
        x.order_id == oid && x.menu_item_id == mid) = some it from hit]
    rfl

/-- Witness for the amended C2 at the concrete price-change store. -/
theorem c2_amended_readd_uses_current_price_witness :
    get_existing_order_item exDb2 1 1
      = some { id := 1, order_id := 1, menu_item_id := 1, quantity := 1,
               unit_price := 2, subtotal := 2, notes := "", created_at := 0 } ∧
    ((add_item exDb2 exUser 1 (some 1) 1).2 = AddItemResult.added "Dosa" ∧
     (add_item exDb2 exUser 1 (some 1) 1).1.order_items.find? (fun x =>
        x.order_id == 1 && x.menu_item_id == 1)
      = some { id := 1, order_id := 1, menu_item_id := 1, quantity := 2,
               unit_price := 2, subtotal := 6, notes := "", created_at := 0 }) :=
  ⟨by with_unfolding_all decide,
   by
    have h := c2_amended_readd_uses_current_price exDb2 exUser 1 1 1
      { id := 1, user_id := 1, restaurant_id := 1, status := "DRAFT", total_amount := 2,
        notes := "", created_at := 0, placed_at := none, cancelled_at := none,
        payment_method_id := none }
      { id := 1, restaurant_id := 1, name := "Dosa", description := "", price := 3,
        created_at := 0 }
      exRest
      { id := 1, order_id := 1, menu_item_id := 1, quantity := 1, unit_price := 2,
        subtotal := 2, notes := "", created_at := 0 }
      (by with_unfolding_all decide) (by with_unfolding_all decide)
      (by with_unfolding_all decide)
    refine ⟨h.1, ?_⟩
    rw [h.2]
    with_unfolding_all decide⟩

/-- Counterexample to C3 as stated: MEMBER thor (country India) lists
orders and is returned a row whose owning user's country is America —
the queries filter only on the restaurant's country, not the owner's. -/
theorem c3_counterexample :
    exUser.role = "MEMBER" ∧ exUser.country = "India" ∧
    (list_orders exDb3 exUser).map (fun t => t.2.1.country) = ["America"] := by
  with_unfolding_all decide

/-- C3 (amended): for a MEMBER or MANAGER requester, every Restaurant,
MenuItem or Order row returned by list-orders, list-restaurants,
view-order or view-restaurant is tied to a restaurant whose country
equals the requester's; the owning user's country is NOT constrained.
(ADMIN is exempt: the role branches above skip the filter entirely.) -/
theorem c3_amended_restaurant_country_scoping (db : DB) (user : User)
    (hrole : user.role = "MEMBER" ∨ user.role = "MANAGER") :
    (∀ t ∈ list_orders db user, t.2.2.1.country = user.country) ∧
    (∀ t ∈ list_restaurants db user, t.1.country = user.country) ∧
    (∀ oid o owner restaurant pm items,
      view_order db user oid = ViewOrderResult.ok o owner restaurant pm items →
      restaurant.country = user.country) ∧
    (∀ rid restaurant items,
      view_restaurant db user rid = ViewRestaurantResult.ok restaurant items →
      restaurant.country = user.country ∧
      ∀ mi ∈ items, mi.restaurant_id = restaurant.id) := by
  have hadm : (user.role == "ADMIN") = false := by
    rcases hrole with h | h <;> simp [h]
  have hcc_eq : ∀ c, check_country_access (some user) c = true → c = user.country := by
    intro c hc
    have hc2 : (if (user.role == "ADMIN") = true then true else user.country == c)
        = true := hc
    rw [hadm] at hc2
    simp only [Bool.false_eq_true, if_false, beq_iff_eq] at hc2
    exact hc2.symm
  refine ⟨?_, ?_, ?_, ?_⟩
  · intro t ht
    unfold list_orders get_orders_for_user at ht
    rw [hadm] at ht
    simp only [Bool.false_eq_true, if_false, List.mem_filter] at ht
    have := ht.2
    simpa [beq_iff_eq] using this
  · intro t ht
    unfold list_restaurants get_restaurants_for_user at ht
    rw [hadm] at ht
    simp only [Bool.false_eq_true, if_false, List.mem_filter] at ht
    have := ht.2
    simpa [beq_iff_eq] using this
  · intro oid o owner restaurant pm items hv
    unfold view_order at hv
    split at hv
    · simp at hv
    · rename_i x o2 u2 r2 pm2 heq
      split at hv
      · simp at hv
      · rename_i hgate
        simp only [ViewOrderResult.ok.injEq] at hv
        have hcc : check_country_access (some user) r2.country = true := by
          cases hval : check_country_access (some user) r2.country
          · rw [hval] at hgate; simp at hgate
          · rfl
        have := hcc_eq r2.country hcc
        rw [← hv.2.2.1]
        exact this
  · intro rid restaurant items hv
    unfold view_restaurant at hv
    split at hv
    · simp at hv
    · rename_i x r2 heq
      split at hv
      · simp at hv
      · rename_i hgate
        simp only [ViewRestaurantResult.ok.injEq] at hv
        have hcc : check_country_access (some user) r2.country = true := by
          cases hval : check_country_access (some user) r2.country
          · rw [hval] at hgate; simp at hgate
          · rfl
        have hcountry := hcc_eq r2.country hcc
        constructor
        · rw [← hv.1]
          exact hcountry
        · intro mi hmi
          rw [← hv.2] at hmi
          unfold get_menu_items_for_restaurant at hmi
          rw [List.mem_filter] at hmi
          have hrid : mi.restaurant_id = rid := by
            simpa [beq_iff_eq] using hmi.2
          have hr2id : r2.id = rid := by
            have := List.find?_some heq
            simpa [beq_iff_eq] using this
          rw [← hv.1, hr2id, hrid]

/-- Witness for the amended C3: viewing the cross-country order succeeds
for the India MEMBER and the restaurant's country matches the
requester's. -/
theorem c3_amended_restaurant_country_scoping_witness :
    view_order exDb3 exUser 1 = ViewOrderResult.ok exOrder3 exAmerican exRest none [] ∧
    exRest.country = exUser.country :=
  ⟨by with_unfolding_all decide,
   (c3_amended_restaurant_country_scoping exDb3 exUser (Or.inl rfl)).2.2.1
     1 exOrder3 exAmerican exRest none [] (by with_unfolding_all decide)⟩

/-- C7: starting from a draft the requester owns whose item table holds
no row for the given menu item (order ids being unique, as the primary
key guarantees), two add-item calls with quantity 1 both succeed and
yield exactly one OrderItem row for (order, menu item), with quantity 2:
AddItem merges into the existing line item instead of inserting a
duplicate row. -/
theorem c7_add_item_merges (db : DB) (user : User) (oid mid : Nat)
    (order : Order) (menu_item : MenuItem) (restaurant : Restaurant)
    (hord : db.orders.find? (fun o =>
        o.id == oid && o.user_id == user.id && o.status == "DRAFT") = some order)
    (hmenu : get_menu_item_with_restaurant db mid order.restaurant_id
        = some (menu_item, restaurant))
    (hnone : db.order_items.filter (fun x =>
        x.order_id == oid && x.menu_item_id == mid) = [])
    (hids : ∀ o1 ∈ db.orders, ∀ o2 ∈ db.orders, o1.id = o2.id → o1 = o2) :
    ((add_item (add_item db user oid (some mid) 1).1 user oid
        (some mid) 1).1.order_items.filter
        (fun x => x.order_id == oid && x.menu_item_id == mid)).map
      (fun x => x.quantity) = [2] ∧
    (add_item (add_item db user oid (some mid) 1).1 user oid (some mid) 1).2
      = AddItemResult.added menu_item.name := by
  have hordmem : order ∈ db.orders := List.mem_of_find?_eq_some hord
  have hp := List.find?_some hord
  simp only [Bool.and_eq_true, beq_iff_eq] at hp
  have heval1 : add_item db user oid (some mid) 1
      = (update_order_total (add_item_to_order db oid mid 1 menu_item.price) order,
         AddItemResult.added menu_item.name) := by
    simp [add_item, hord, hmenu]
  have hpref : ∀ x ∈ db.order_items,
      (x.order_id == oid && x.menu_item_id == mid) = false := by
    intro x hx
    have := List.filter_eq_nil_iff.mp hnone x hx
    simpa using this
  have hpfx_none : db.order_items.find?
      (fun x => x.order_id == oid && x.menu_item_id == mid) = none :=
    List.find?_eq_none.mpr (fun x hx => by simp [hpref x hx])
  have hfind_none : get_existing_order_item db oid mid = none := hpfx_none
  obtain ⟨nIt, hit1x, hpnIt, hq1⟩ :=
    add_item_to_order_new db oid mid 1 menu_item.price hfind_none
  have hit1 : (update_order_total (add_item_to_order db oid mid 1 menu_item.price)
      order).order_items = db.order_items ++ [nIt] := by
    rw [update_order_total_order_items]
    exact hit1x
  have hcongr : ∀ y ∈ db.orders, (y.id == order.id)
      = (y.id == oid && y.user_id == user.id && y.status == "DRAFT") := by
    intro y hy
    by_cases hcase : y.id = order.id
    · have hyo : y = order := hids y hy order hordmem hcase
      subst hyo
      simp [hp.1.1, hp.1.2, hp.2]
    · have h1 : (y.id == order.id) = false := by simpa using hcase
      have h2 : (y.id == oid) = false := by
        rw [← hp.1.1]
        simpa using hcase
      simp [h1, h2]
  have hord1 : (update_order_total (add_item_to_order db oid mid 1 menu_item.price)
        order).orders.find?
      (fun o => o.id == oid && o.user_id == user.id && o.status == "DRAFT")
      = some { order with total_amount := (order_items_subtotal_sum
          (add_item_to_order db oid mid 1 menu_item.price) order.id) } := by
    show (update_first (fun o => o.id == order.id)
        (fun o => { o with total_amount := (order_items_subtotal_sum
            (add_item_to_order db oid mid 1 menu_item.price) order.id) })
        (add_item_to_order db oid mid 1 menu_item.price).orders).find?
        (fun o => o.id == oid && o.user_id == user.id && o.status == "DRAFT")
      = some { order with total_amount := (order_items_subtotal_sum
          (add_item_to_order db oid mid 1 menu_item.price) order.id) }
    rw [add_item_to_order_orders]
    rw [update_first_congr _ _ _ _ hcongr]
    rw [find?_update_first
      (fun o => o.id == oid && o.user_id == user.id && o.status == "DRAFT")
      (fun o => { o with total_amount := (order_items_subtotal_sum
          (add_item_to_order db oid mid 1 menu_item.price) order.id) })
      db.orders (fun x hx => hx), hord]
    rfl
  have hmenu1 : get_menu_item_with_restaurant
      (update_order_total (add_item_to_order db oid mid 1 menu_item.price) order) mid
      order.restaurant_id = some (menu_item, restaurant) := by
    unfold get_menu_item_with_restaurant at hmenu ⊢
    simp only [update_order_total_menu_items, add_item_to_order_menu_items,
      update_order_total_restaurants, add_item_to_order_restaurants]
    exact hmenu
  have hexist1 : get_existing_order_item
      (update_order_total (add_item_to_order db oid mid 1 menu_item.price) order)
      oid mid = some nIt := by
    show (update_order_total (add_item_to_order db oid mid 1 menu_item.price)
        order).order_items.find?
        (fun it => it.order_id == oid && it.menu_item_id == mid) = some nIt
    rw [hit1, find?_append_left_none _ _ _ hpfx_none]
    exact List.find?_cons_of_pos _ hpnIt
  have heval2 : add_item (update_order_total
        (add_item_to_order db oid mid 1 menu_item.price) order) user oid (some mid) 1
      = (update_order_total (add_item_to_order
          (update_order_total (add_item_to_order db oid mid 1 menu_item.price) order)
          oid mid 1 menu_item.price)
          { order with total_amount := (order_items_subtotal_sum
              (add_item_to_order db oid mid 1 menu_item.price) order.id) },
         AddItemResult.added menu_item.name) := by
    simp [add_item, hord1, hmenu1]
  have hitems2 : (add_item (update_order_total
        (add_item_to_order db oid mid 1 menu_item.price) order) user oid
        (some mid) 1).1.order_items
      = db.order_items ++ [{ nIt with
          quantity := nIt.quantity + 1
          subtotal := (nIt.quantity + 1 : Nat) * menu_item.price }] := by
    rw [heval2]
    show (update_order_total (add_item_to_order
        (update_order_total (add_item_to_order db oid mid 1 menu_item.price) order)
        oid mid 1 menu_item.price)
        { order with total_amount := (order_items_subtotal_sum
            (add_item_to_order db oid mid 1 menu_item.price) order.id) }).order_items
      = db.order_items ++ [{ nIt with
          quantity := nIt.quantity + 1
          subtotal := (nIt.quantity + 1 : Nat) * menu_item.price }]
    rw [update_order_total_order_items]
    rw [add_item_to_order_existing _ _ _ _ _ _ hexist1]
    rw [hit1, update_first_append_left _ _ _ _ hpref]
    congr 1
    simp [update_first, hpnIt]
  refine ⟨?_, ?_⟩
  · rw [heval1]
    show (((add_item (update_order_total
        (add_item_to_order db oid mid 1 menu_item.price) order) user oid
        (some mid) 1).1.order_items.filter
        (fun x => x.order_id == oid && x.menu_item_id == mid)).map
      (fun x => x.quantity)) = [2]
    rw [hitems2, List.filter_append, hnone]
    simp [List.filter_cons, hpnIt, hq1]
  · rw [heval1]
    show (add_item (update_order_total
        (add_item_to_order db oid mid 1 menu_item.price) order) user oid
        (some mid) 1).2 = AddItemResult.added menu_item.name
    rw [heval2]

/-- Witness for C7 at a concrete empty-cart draft: after two unit adds
of menu item 1 the item table holds exactly one matching row with
quantity 2. -/
theorem c7_add_item_merges_witness :
    exDb7.order_items.filter (fun x => x.order_id == 1 && x.menu_item_id == 1) = [] ∧
    (((add_item (add_item exDb7 exUser 1 (some 1) 1).1 exUser 1
          (some 1) 1).1.order_items.filter
        (fun x => x.order_id == 1 && x.menu_item_id == 1)).map
      (fun x => x.quantity) = [2] ∧
     (add_item (add_item exDb7 exUser 1 (some 1) 1).1 exUser 1 (some 1) 1).2
      = AddItemResult.added "Dosa") :=
  ⟨rfl,
   c7_add_item_merges exDb7 exUser 1 1
     { id := 1, user_id := 1, restaurant_id := 1, status := "DRAFT", total_amount := 0,
       notes := "", created_at := 0, placed_at := none, cancelled_at := none,
       payment_method_id := none }
     { id := 1, restaurant_id := 1, name := "Dosa", description := "", price := 6,
       created_at := 0 }
     exRest
     (by with_unfolding_all decide) (by with_unfolding_all decide) rfl
     (by with_unfolding_all decide)⟩
